import Mathlib

/-!
Verification of the distributed-rate-limiter core: a shallow embedding of
the token-bucket Lua script (`algorithms/token_bucket.py`), the decision
value (`types.py`), the orchestrator control flow (`limiter.py`), and the
Redis backend adapters (`backends/redis_sync.py`, `backends/redis_async.py`),
together with theorems settling the specification's claims about them.

Modelling conventions:
* Lua numbers (and the bucket's floating-point token balance) are embedded
  as rationals `ℚ`; the engine converts a Lua number reply to an integer by
  truncation, which on the (non-negative) token balance equals `Int.floor`.
* Python exceptions are an explicit error type `PyError`; fallible code
  returns `Except PyError _`.
* Caller-supplied observer callbacks are modelled by their observable
  behaviour: configured / not configured, and whether they raise.
-/

namespace DRL

instance {ε α : Type} [DecidableEq ε] [DecidableEq α] : DecidableEq (Except ε α) := fun x y =>
  match x, y with
  | .ok a, .ok b =>
    if h : a = b then .isTrue (by rw [h]) else .isFalse (by intro hc; cases hc; exact h rfl)
  | .error a, .error b =>
    if h : a = b then .isTrue (by rw [h]) else .isFalse (by intro hc; cases hc; exact h rfl)
  | .ok _, .error _ => .isFalse (by intro hc; cases hc)
  | .error _, .ok _ => .isFalse (by intro hc; cases hc)

/-- The exception taxonomy of `exceptions.py`, plus the Python built-ins the
limiter can raise (`RuntimeError`, `TypeError` from ABC instantiation,
`NotImplementedError` from an abstract method body) and the engine-side
Lua error. -/
inductive PyError where
  | runtimeError
  | identityError
  | configurationError
  | algorithmError
  | backendUnavailable
  | notImplementedError
  | redisError
  | typeError
  | luaError
deriving DecidableEq

/-- `types.py` `RateLimitInfo`: immutable metadata about one admission check. -/
structure RateLimitInfo where
  limit : Int
  remaining : Int
  reset : Int
  allowed : Bool
  cost : Int := 1
deriving DecidableEq

/-- `RateLimitInfo.retry_after`: the source computes
`max(0, self.reset - int(self.reset))`; since `reset` is an `int`,
`int(self.reset) = self.reset`. -/
def RateLimitInfo.retry_after (i : RateLimitInfo) : Int :=
  max 0 (i.reset - i.reset)

/-- `RateLimitInfo.reset_after`: alias of `retry_after`. -/
def RateLimitInfo.reset_after (i : RateLimitInfo) : Int :=
  i.retry_after

/-- `RateLimitInfo.as_headers`: relative-reset header form. -/
def RateLimitInfo.as_headers (i : RateLimitInfo) : List (String × String) :=
  [("RateLimit-Limit", toString i.limit),
   ("RateLimit-Remaining", toString i.remaining),
   ("RateLimit-Reset", toString i.reset_after)]

/-- `RateLimitInfo.as_absolute_headers`: absolute-reset header form. -/
def RateLimitInfo.as_absolute_headers (i : RateLimitInfo) : List (String × String) :=
  [("RateLimit-Limit", toString i.limit),
   ("RateLimit-Remaining", toString i.remaining),
   ("RateLimit-Reset", toString i.reset)]

/-- The per-key bucket state stored in the engine's hash
(`tokens`, `last_refill`), as written by the Lua script. -/
structure BucketState where
  tokens : ℚ
  last_refill : ℚ
deriving DecidableEq

/-- The 3-element reply `{ allowed, tokens, reset }` of the Lua script, after
the engine's Lua-number-to-integer conversion (truncation; the token balance
is non-negative, so truncation is `Int.floor`; `reset` and `allowed` are
already integral). -/
structure LuaReply where
  allowed : Int
  remaining : Int
  reset : Int
deriving DecidableEq

/-- The token-bucket Lua script of `TokenBucket.lua_script`
(`algorithms/token_bucket.py`), evaluated at server clock `now` on the
stored state `data` (`none` when the key is absent) with argument vector
`argv`.  `tonumber` of a missing `ARGV[1..3]` is `nil` and the subsequent
arithmetic is a Lua runtime error (`.luaError`); a missing `ARGV[4]` makes
`cost` default to `1` (`tonumber(ARGV[4]) or 1`).  Division is exact on `ℚ`
(the callers guarantee `rate, per > 0`, so no division by zero arises). -/
def luaTokenBucket (argv : List ℚ) (now : ℚ) (data : Option BucketState) :
    Except PyError (LuaReply × BucketState) :=
  match argv.get? 0, argv.get? 1, argv.get? 2 with
  | some rate, some per, some capacity =>
    let cost : ℚ := (argv.get? 3).getD 1
    let init : ℚ × ℚ :=
      match data with
      | none => (capacity, now)
      | some st => (st.tokens, st.last_refill)
    let tokens0 := init.1
    let last_refill := init.2
    -- `math.max(0, now - last_refill)`, written as its defining conditional
    let delta := if now - last_refill ≤ 0 then 0 else now - last_refill
    let refill := delta * rate / per
    -- `math.min(capacity, tokens + refill)`, written as its defining conditional
    let tokens1 :=
      if capacity ≤ tokens0 + refill then capacity else tokens0 + refill
    -- `local allowed = 0; if tokens >= cost then allowed = 1; tokens = tokens - cost end`
    let allowed : Int := if cost ≤ tokens1 then 1 else 0
    let tokens2 := if cost ≤ tokens1 then tokens1 - cost else tokens1
    let tokens3 := if tokens2 < 0 then 0 else tokens2
    let missing := capacity - tokens3
    let reset := ⌈now + missing * per / rate⌉
    .ok ({ allowed := allowed, remaining := ⌊tokens3⌋, reset := reset },
         { tokens := tokens3, last_refill := now })
  | _, _, _ => .error .luaError

/-- The INTERPRETING step of `RateLimiter.allow` applied to a well-formed raw
triple: `RateLimitInfo(limit=self.rate, remaining=int(remaining),
reset=int(reset), allowed=bool(allowed), cost=cost)`. -/
def mkInfo (rate cost : Int) (r : LuaReply) : RateLimitInfo :=
  { limit := rate, remaining := r.remaining, reset := r.reset,
    allowed := r.allowed != 0, cost := cost }

/-- `RateLimitAlgorithm.dynamic_args` (`algorithms/base.py`): the base-class
default returns no dynamic arguments, and `TokenBucket` does not override it,
so the per-call `cost` is never appended to the script argument vector. -/
def dynamicArgsDefault (cost : Int) : List ℚ := []

/-- `TokenBucket.args` (`algorithms/token_bucket.py`): `[rate, per, burst]`.
Defined by the source but never called by the limiter, whose `_build_args`
calls `static_args` instead. -/
def tokenBucketArgs (rate per burst : ℚ) : List ℚ := [rate, per, burst]

/-- The abstract methods declared by `RateLimitAlgorithm`
(`algorithms/base.py`): `lua_script` and `static_args`. -/
def abstractMethods : List String := ["lua_script", "static_args"]

/-- The methods the `TokenBucket` class body defines
(`algorithms/token_bucket.py`). -/
def tokenBucketDefinedMethods : List String := ["__init__", "args", "lua_script"]

/-- The abstract methods `TokenBucket` leaves unimplemented. Python's ABC
machinery raises `TypeError` on instantiating a class for which this list is
non-empty. -/
def tokenBucketMissingAbstract : List String :=
  abstractMethods.filter (fun m => !(tokenBucketDefinedMethods.contains m))

/-- `RateLimiter.__init__` (`limiter.py`): validation, then construction of
the algorithm object `TokenBucket(rate, per, self.burst)`.  The validation
checks are, in source order: `rate <= 0 or per <= 0`, `fail_strategy not in
{"open", "closed"}`, `algorithm != "token_bucket"`, each raising
`ConfigurationError`.  Instantiating `TokenBucket` raises `TypeError` when it
leaves an abstract method unimplemented; the backend construction (which
pings Redis) comes after the algorithm and is never reached in that case. -/
def rateLimiterInit (rate per : Int) (burst : Option Int)
    (algorithm fail_strategy : String) : Except PyError Unit :=
  if rate ≤ 0 ∨ per ≤ 0 then .error .configurationError
  else if ¬(fail_strategy = "open" ∨ fail_strategy = "closed") then
    .error .configurationError
  else if algorithm ≠ "token_bucket" then .error .configurationError
  else if tokenBucketMissingAbstract ≠ [] then .error .typeError
  else .ok ()

/-- A Python identity argument: a string, or a value of some other type. -/
inductive PyIdentity where
  | str (s : String)
  | nonStr
deriving DecidableEq

/-- `RateLimiter._validate_identity`: not a string, empty, or longer than
1024 characters each raise `IdentityError`, in that order. -/
def validateIdentity : PyIdentity → Option PyError
  | .nonStr => some .identityError
  | .str s =>
    if s = "" then some .identityError
    else if 1024 < s.length then some .identityError
    else none

/-- The configuration fields of a constructed `RateLimiter` relevant to
`allow` / `allow_async`. -/
structure LimiterCfg where
  rate : Int
  per : Int
  burst : Option Int
  fail_strategy : String
  async_mode : Bool
deriving DecidableEq

/-- `self.burst = burst if burst is not None else rate`. -/
def LimiterCfg.capacity (cfg : LimiterCfg) : Int :=
  cfg.burst.getD cfg.rate

/-- Caller-supplied observer callbacks, modelled by their observable
behaviour: `none` = not configured, `some b` = configured with `b` saying
whether invoking it raises.  `on_error` is modelled as configured-or-not
(the claims exercise non-raising error observers). -/
structure Callbacks where
  on_allow : Option Bool
  on_block : Option Bool
  on_error : Bool
deriving DecidableEq

/-- A raw reply from the execution engine, as seen by the
`isinstance(result, (list, tuple)) and len(result) == 3` check: an array of
integers, a bare integer, or a nil reply. -/
inductive RedisReply where
  | arr (xs : List Int)
  | num (n : Int)
  | nil
deriving DecidableEq

/-- The shape check `isinstance(result, (list, tuple)) and len(result) == 3`
of `RateLimiter.allow`, on a raw engine reply. -/
def RedisReply.wellFormed : RedisReply → Bool
  | .arr xs => xs.length == 3
  | _ => false

/-- The outcome of the `backend.execute` call inside the `try` block of
`allow`: a reply, or a backend-unavailability exception (connectivity /
timeout `RedisError`). -/
inductive ExecOutcome where
  | ok (r : RedisReply)
  | unavailable
deriving DecidableEq

/-- `RateLimiter._handle_backend_failure`: invoke `on_error` if configured
(the second component counts its invocations), then raise
`BackendUnavailable` when `fail_strategy == "closed"`, else return the
fail-open pair `(True, None)`. -/
def handleBackendFailure (cfg : LimiterCfg) (cb : Callbacks) :
    Except PyError (Bool × Option RateLimitInfo) × Nat :=
  let calls := if cb.on_error then 1 else 0
  if cfg.fail_strategy = "closed" then (.error .backendUnavailable, calls)
  else (.ok (true, none), calls)

/-- The body of the `try ... except Exception` block of `RateLimiter.allow`
(lines 134-166), given the outcome of the `backend.execute` call: shape-check
the reply (a malformed shape raises `AlgorithmError` *inside* the `try`, so
it is caught by the blanket `except` and routed to
`_handle_backend_failure`), build the `RateLimitInfo`, run the admit/reject
observer (an exception there is likewise caught by the blanket `except`),
and return `(info.allowed, info)`. -/
def allowBody (cfg : LimiterCfg) (cb : Callbacks) (exec : ExecOutcome)
    (cost : Int) : Except PyError (Bool × Option RateLimitInfo) × Nat :=
  match exec with
  | .unavailable => handleBackendFailure cfg cb
  | .ok (.arr [a, rem, rst]) =>
    let info : RateLimitInfo :=
      { limit := cfg.rate, remaining := rem, reset := rst,
        allowed := a != 0, cost := cost }
    if info.allowed then
      match cb.on_allow with
      | some true => handleBackendFailure cfg cb
      | _ => (.ok (info.allowed, some info), 0)
    else
      match cb.on_block with
      | some true => handleBackendFailure cfg cb
      | _ => (.ok (info.allowed, some info), 0)
  | .ok _ => handleBackendFailure cfg cb

/-- The observable result of one `allow` / `allow_async` call:
its return-or-raise outcome, how many times `on_error` ran, and whether the
executor was reached. -/
structure AllowResult where
  outcome : Except PyError (Bool × Option RateLimitInfo)
  on_error_calls : Nat
  executor_contacted : Bool
deriving DecidableEq

/-- `RateLimiter.allow` (sync API): mode guard, identity validation and cost
validation happen *before* the `try` block, so their exceptions surface
directly; everything after is the `try` body with the execute outcome
abstracted as `exec`. -/
def allowModel (cfg : LimiterCfg) (cb : Callbacks) (exec : ExecOutcome)
    (identity : PyIdentity) (cost : Int) : AllowResult :=
  if cfg.async_mode then
    { outcome := .error .runtimeError, on_error_calls := 0,
      executor_contacted := false }
  else
    match validateIdentity identity with
    | some e =>
      { outcome := .error e, on_error_calls := 0, executor_contacted := false }
    | none =>
      if cost ≤ 0 then
        { outcome := .error .configurationError, on_error_calls := 0,
          executor_contacted := false }
      else
        let r := allowBody cfg cb exec cost
        { outcome := r.1, on_error_calls := r.2, executor_contacted := true }

/-- `RateLimiter.allow_async`: identical to `allow` except the mode guard is
inverted (`RuntimeError` unless `async_mode=True`). -/
def allowAsyncModel (cfg : LimiterCfg) (cb : Callbacks) (exec : ExecOutcome)
    (identity : PyIdentity) (cost : Int) : AllowResult :=
  if ¬cfg.async_mode then
    { outcome := .error .runtimeError, on_error_calls := 0,
      executor_contacted := false }
  else
    match validateIdentity identity with
    | some e =>
      { outcome := .error e, on_error_calls := 0, executor_contacted := false }
    | none =>
      if cost ≤ 0 then
        { outcome := .error .configurationError, on_error_calls := 0,
          executor_contacted := false }
      else
        let r := allowBody cfg cb exec cost
        { outcome := r.1, on_error_calls := r.2, executor_contacted := true }

/-- The content digest used as the script-cache key
(`hashlib.sha256(script.encode()).hexdigest()`): an external standard-library
primitive, modelled as an injective placeholder digest of the source. -/
def sha256Hex (s : String) : String := s

/-- The mutable state of `RedisSyncBackend`: the local script cache, mapping
content digest to the registration handle (the `Script` object wrapping the
source, modelled by the source it wraps). -/
structure SyncBackend where
  script_cache : List (String × String)
deriving DecidableEq

/-- `_get_or_register_script`: look the digest up in the cache; on a miss,
register the script (a purely local construction in the client library) and
cache it. -/
def getOrRegisterScript (cache : List (String × String)) (script : String) :
    String × List (String × String) :=
  let key := sha256Hex script
  match cache.lookup key with
  | some lua => (lua, cache)
  | none => (script, (key, script) :: cache)

/-- The outcome of invoking a registered script on the engine: a reply, or a
`RedisError`. -/
inductive LuaCallOutcome where
  | ok (r : RedisReply)
  | redisError
deriving DecidableEq

/-- `RedisSyncBackend.execute`: registration happens before the `try`; a
`RedisError` from the call clears the script cache before re-raising. -/
def syncExecute (st : SyncBackend) (script : String) (call : LuaCallOutcome) :
    Except PyError RedisReply × SyncBackend :=
  let reg := getOrRegisterScript st.script_cache script
  match call with
  | .ok r => (.ok r, { script_cache := reg.2 })
  | .redisError => (.error .redisError, { script_cache := [] })

/-- The mutable state of `RedisAsyncBackend`: the pending-first-ping flag and
the script cache. -/
structure AsyncBackend where
  ping_on_start : Bool
  script_cache : List (String × String)
deriving DecidableEq

/-- A freshly constructed `RedisAsyncBackend` (with the default
`ping_on_start=True`): empty cache, ping still pending. -/
def asyncBackendStart : AsyncBackend :=
  { ping_on_start := true, script_cache := [] }

/-- `RedisAsyncBackend.execute`: `_ensure_connection` pings (outside the
`try`) while `ping_on_start` is set, clearing the flag on success; then,
inside the `try`, the script is registered and invoked, and a `RedisError`
clears the script cache before re-raising. -/
def asyncExecute (st : AsyncBackend) (script : String) (pingOk : Bool)
    (call : LuaCallOutcome) : Except PyError RedisReply × AsyncBackend :=
  if st.ping_on_start && !pingOk then (.error .redisError, st)
  else
    let reg := getOrRegisterScript st.script_cache script
    match call with
    | .ok r => (.ok r, { ping_on_start := false, script_cache := reg.2 })
    | .redisError =>
      (.error .redisError, { ping_on_start := false, script_cache := [] })

/-- The states a `RedisAsyncBackend` can actually be in: the freshly
constructed state, closed under `execute` calls. -/
inductive AsyncReachable : AsyncBackend → Prop
  | start : AsyncReachable asyncBackendStart
  | step (st : AsyncBackend) (script : String) (pingOk : Bool)
      (call : LuaCallOutcome) : AsyncReachable st →
      AsyncReachable (asyncExecute st script pingOk call).2

/-- C1: the token-bucket script itself does admit exactly `capacity = 3`
consecutive unit-cost checks at a frozen store clock (`rate=3, per=10,
capacity=3`: remaining 2, then 1, then 0, then a rejection with remaining 0)
— but the shipped orchestrator can never run the scenario, because
constructing `RateLimiter` with this (valid) configuration raises
`TypeError`: `TokenBucket` leaves the abstract method `static_args`
unimplemented, so `TokenBucket(rate, per, self.burst)` cannot be
instantiated. -/
theorem c1_fresh_key_scenario_holds_in_script_but_construction_raises :
    luaTokenBucket [3, 10, 3] 100 none =
      .ok ({ allowed := 1, remaining := 2, reset := 104 },
           { tokens := 2, last_refill := 100 }) ∧
    luaTokenBucket [3, 10, 3] 100 (some { tokens := 2, last_refill := 100 }) =
      .ok ({ allowed := 1, remaining := 1, reset := 107 },
           { tokens := 1, last_refill := 100 }) ∧
    luaTokenBucket [3, 10, 3] 100 (some { tokens := 1, last_refill := 100 }) =
      .ok ({ allowed := 1, remaining := 0, reset := 110 },
           { tokens := 0, last_refill := 100 }) ∧
    luaTokenBucket [3, 10, 3] 100 (some { tokens := 0, last_refill := 100 }) =
      .ok ({ allowed := 0, remaining := 0, reset := 110 },
           { tokens := 0, last_refill := 100 }) ∧
    rateLimiterInit 3 10 none "token_bucket" "open" = .error .typeError := by
  refine ⟨?_, ?_, ?_, ?_, ?_⟩
  · norm_num [luaTokenBucket, Int.ceil_eq_iff]
  · norm_num [luaTokenBucket, Int.ceil_eq_iff]
  · norm_num [luaTokenBucket, Int.ceil_eq_iff]
  · norm_num [luaTokenBucket, Int.ceil_eq_iff]
  · decide

/-- C2 counterexample: with the valid configuration `rate=1, per=1, burst=5`
(burst different from rate), the very first unit-cost check on a fresh key
yields a Decision Result with `remaining = 4 > 1 = limit`, so
`remaining ∈ [0, limit]` fails. -/
theorem c2_counterexample_remaining_exceeds_limit_when_burst_gt_rate :
    luaTokenBucket [1, 1, 5] 100 none =
      .ok ({ allowed := 1, remaining := 4, reset := 101 },
           { tokens := 4, last_refill := 100 }) ∧
    (mkInfo 1 1 { allowed := 1, remaining := 4, reset := 101 }).limit <
      (mkInfo 1 1 { allowed := 1, remaining := 4, reset := 101 }).remaining := by
  constructor
  · norm_num [luaTokenBucket, Int.ceil_eq_iff]
  · decide

/-- Bound package for the script's outputs, given a post-clamp balance `X`
with `0 ≤ X ≤ capacity`: the truncated `remaining` stays in
`[0, capacity]` and the ceiling-projected `reset` is at or after `now`. -/
theorem luaReplyBounds (rate per capacity now X : ℚ) (hrate : 0 < rate)
    (hper : 0 < per) (hX0 : 0 ≤ X) (hXc : X ≤ capacity) :
    0 ≤ ⌊X⌋ ∧ ((⌊X⌋ : ℚ)) ≤ capacity ∧
    now ≤ ((⌈now + (capacity - X) * per / rate⌉ : ℤ) : ℚ) ∧
    0 ≤ X ∧ X ≤ capacity := by
  refine ⟨Int.le_floor.mpr (by exact_mod_cast hX0),
    le_trans (Int.floor_le X) hXc, ?_, hX0, hXc⟩
  have hterm : 0 ≤ (capacity - X) * per / rate :=
    div_nonneg (mul_nonneg (by linarith) hper.le) hrate.le
  have hceil := Int.le_ceil (now + (capacity - X) * per / rate)
  linarith

/-- C2 amended: for every valid configuration (`rate, per > 0`,
`capacity ≥ 0`, non-negative cost) and every stored state, the script's
reply satisfies `remaining ∈ [0, capacity]` — the bound is the burst
capacity, not the reported `limit = rate` — and `reset ≥` the store-clock
evaluation time; the persisted balance likewise stays in `[0, capacity]`.
(`remaining ∈ [0, limit]` follows only in the default case
`capacity = rate`.) -/
theorem c2_amended_remaining_in_capacity_and_reset_at_least_now
    (rate per capacity cost now : ℚ) (st : Option BucketState)
    (r : LuaReply) (st' : BucketState)
    (hrate : 0 < rate) (hper : 0 < per) (hcap : 0 ≤ capacity)
    (hcost : 0 ≤ cost)
    (h : luaTokenBucket [rate, per, capacity, cost] now st = .ok (r, st')) :
    0 ≤ r.remaining ∧ ((r.remaining : ℚ)) ≤ capacity ∧
    now ≤ ((r.reset : ℚ)) ∧ 0 ≤ st'.tokens ∧ st'.tokens ≤ capacity := by
  rcases st with _ | ⟨t0, l0⟩ <;>
  · unfold luaTokenBucket at h
    simp only [show [rate, per, capacity, cost].get? 0 = some rate from rfl,
      show [rate, per, capacity, cost].get? 1 = some per from rfl,
      show [rate, per, capacity, cost].get? 2 = some capacity from rfl,
      show [rate, per, capacity, cost].get? 3 = some cost from rfl,
      Option.getD_some] at h
    split_ifs at h <;>
    · injection h with h
      injection h with hr hs
      subst hr; subst hs
      exact luaReplyBounds _ _ _ _ _ hrate hper (by linarith) (by linarith)

/-- C2 amended witness: the first unit-cost check on a fresh bucket with
`rate=1, per=1, capacity=3` at store clock 0 satisfies the bounds. -/
theorem c2_amended_remaining_in_capacity_and_reset_at_least_now_witness :
    0 ≤ ({ allowed := 1, remaining := 2, reset := 1 } : LuaReply).remaining ∧
    ((({ allowed := 1, remaining := 2, reset := 1 } : LuaReply).remaining : ℚ)) ≤ 3 ∧
    (0 : ℚ) ≤ ((({ allowed := 1, remaining := 2, reset := 1 } : LuaReply).reset : ℚ)) ∧
    0 ≤ ({ tokens := 2, last_refill := 0 } : BucketState).tokens ∧
    ({ tokens := 2, last_refill := 0 } : BucketState).tokens ≤ 3 :=
  c2_amended_remaining_in_capacity_and_reset_at_least_now 1 1 3 1 0 none
    { allowed := 1, remaining := 2, reset := 1 }
    { tokens := 2, last_refill := 0 }
    (by norm_num) (by norm_num) (by norm_num) (by norm_num)
    (by norm_num [luaTokenBucket, Int.ceil_eq_iff])

/-- C3 counterexample: with `fail_strategy="open"`, an executor result of
shape `[1, 2]` (not a 3-element list) is caught by the blanket
`except Exception` and converted into the fail-open outcome
`(allowed=True, decision=None)` — no algorithm-contract error reaches the
caller. -/
theorem c3_counterexample_malformed_shape_fails_open :
    allowModel
        { rate := 3, per := 10, burst := none, fail_strategy := "open",
          async_mode := false }
        { on_allow := none, on_block := none, on_error := false }
        (.ok (.arr [1, 2])) (.str "u") 1 =
      { outcome := .ok (true, none), on_error_calls := 0,
        executor_contacted := true } := by
  decide

/-- C3 amended: a malformed result shape raises `AlgorithmError` inside the
`try` block, so it is routed through the fail strategy like any other
execution failure: `fail_strategy="closed"` surfaces `BackendUnavailable`,
`fail_strategy="open"` returns `(allowed=True, decision=None)`, and the
`on_error` observer is invoked when configured. -/
theorem c3_amended_malformed_shape_routed_through_fail_strategy
    (cfg : LimiterCfg) (cb : Callbacks) (r : RedisReply)
    (identity : PyIdentity) (cost : Int)
    (hmode : cfg.async_mode = false) (hid : validateIdentity identity = none)
    (hcost : 0 < cost) (hmal : r.wellFormed = false) :
    (cfg.fail_strategy = "closed" →
      (allowModel cfg cb (.ok r) identity cost).outcome =
        .error .backendUnavailable) ∧
    (cfg.fail_strategy ≠ "closed" →
      (allowModel cfg cb (.ok r) identity cost).outcome = .ok (true, none)) ∧
    (allowModel cfg cb (.ok r) identity cost).on_error_calls =
      (if cb.on_error then 1 else 0) := by
  have hcost' : ¬ cost ≤ 0 := not_le.mpr hcost
  have hbody : allowBody cfg cb (.ok r) cost = handleBackendFailure cfg cb := by
    cases r with
    | arr xs =>
      rcases xs with _ | ⟨a, _ | ⟨b, _ | ⟨c, _ | ⟨d, rest⟩⟩⟩⟩
      · rfl
      · rfl
      · rfl
      · simp [RedisReply.wellFormed] at hmal
      · rfl
    | num n => rfl
    | nil => rfl
  have hres : allowModel cfg cb (.ok r) identity cost =
      { outcome := (handleBackendFailure cfg cb).1,
        on_error_calls := (handleBackendFailure cfg cb).2,
        executor_contacted := true } := by
    simp [allowModel, hmode, hid, hcost', hbody]
  refine ⟨fun hfs => ?_, fun hfs => ?_, ?_⟩
  · simp [hres, handleBackendFailure, hfs]
  · simp [hres, handleBackendFailure, hfs]
  · by_cases hfs : cfg.fail_strategy = "closed" <;>
      simp [hres, handleBackendFailure, hfs]

/-- C3 amended witness: a 2-element reply under `fail_strategy="open"` with a
configured error observer. -/
theorem c3_amended_malformed_shape_routed_through_fail_strategy_witness :
    (("open" : String) = "closed" →
      (allowModel
          { rate := 3, per := 10, burst := none, fail_strategy := "open",
            async_mode := false }
          { on_allow := none, on_block := none, on_error := true }
          (.ok (.arr [1, 2])) (.str "u") 1).outcome =
        .error .backendUnavailable) ∧
    (("open" : String) ≠ "closed" →
      (allowModel
          { rate := 3, per := 10, burst := none, fail_strategy := "open",
            async_mode := false }
          { on_allow := none, on_block := none, on_error := true }
          (.ok (.arr [1, 2])) (.str "u") 1).outcome = .ok (true, none)) ∧
    (allowModel
        { rate := 3, per := 10, burst := none, fail_strategy := "open",
          async_mode := false }
        { on_allow := none, on_block := none, on_error := true }
        (.ok (.arr [1, 2])) (.str "u") 1).on_error_calls =
      (if (true : Bool) then 1 else 0) :=
  c3_amended_malformed_shape_routed_through_fail_strategy
    { rate := 3, per := 10, burst := none, fail_strategy := "open",
      async_mode := false }
    { on_allow := none, on_block := none, on_error := true }
    (.arr [1, 2]) (.str "u") 1 rfl rfl (by decide) rfl

/-- C4 counterexample: with `fail_strategy="open"` and a well-formed
rejection reply `[0, 0, 110]`, a raising `on_block` observer changes the
returned pair from `(False, info)` (its value with no callbacks configured)
to the fail-open pair `(True, None)` — the decision is altered, and even the
boolean flips. -/
theorem c4_counterexample_raising_on_block_flips_decision :
    (allowModel
        { rate := 3, per := 10, burst := none, fail_strategy := "open",
          async_mode := false }
        { on_allow := none, on_block := some true, on_error := false }
        (.ok (.arr [0, 0, 110])) (.str "u") 1).outcome = .ok (true, none) ∧
    (allowModel
        { rate := 3, per := 10, burst := none, fail_strategy := "open",
          async_mode := false }
        { on_allow := none, on_block := none, on_error := false }
        (.ok (.arr [0, 0, 110])) (.str "u") 1).outcome =
      .ok (false, some { limit := 3, remaining := 0, reset := 110,
                         allowed := false, cost := 1 }) := by
  decide

/-- C4 amended: an exception raised by the admit/reject observer is caught by
the blanket `except Exception` of `allow` and replaced by the fail-strategy
outcome — `fail_strategy="closed"` raises `BackendUnavailable`,
`fail_strategy="open"` returns `(allowed=True, decision=None)` — so the
callback exception itself never propagates, but the returned decision is not
the one computed from the engine reply. -/
theorem c4_amended_callback_exception_replaced_by_fail_strategy_outcome
    (cfg : LimiterCfg) (cb : Callbacks) (a rem rst : Int)
    (identity : PyIdentity) (cost : Int)
    (hmode : cfg.async_mode = false) (hid : validateIdentity identity = none)
    (hcost : 0 < cost)
    (hraise : (a ≠ 0 ∧ cb.on_allow = some true) ∨
      (a = 0 ∧ cb.on_block = some true)) :
    (allowModel cfg cb (.ok (.arr [a, rem, rst])) identity cost).outcome =
      (if cfg.fail_strategy = "closed" then .error .backendUnavailable
       else .ok (true, none)) ∧
    (allowModel cfg cb (.ok (.arr [a, rem, rst])) identity cost).on_error_calls =
      (if cb.on_error then 1 else 0) := by
  have hcost' : ¬ cost ≤ 0 := not_le.mpr hcost
  have hbody : allowBody cfg cb (.ok (.arr [a, rem, rst])) cost =
      handleBackendFailure cfg cb := by
    rcases hraise with ⟨ha, hcb⟩ | ⟨ha, hcb⟩
    · simp [allowBody, hcb, ha]
    · simp [allowBody, hcb, ha]
  have hres : allowModel cfg cb (.ok (.arr [a, rem, rst])) identity cost =
      { outcome := (handleBackendFailure cfg cb).1,
        on_error_calls := (handleBackendFailure cfg cb).2,
        executor_contacted := true } := by
    simp [allowModel, hmode, hid, hcost', hbody]
  constructor <;> by_cases hfs : cfg.fail_strategy = "closed" <;>
    simp [hres, handleBackendFailure, hfs]

/-- C4 amended witness: a rejection reply with a raising `on_block` under
`fail_strategy="open"` and a configured error observer. -/
theorem c4_amended_callback_exception_replaced_by_fail_strategy_witness :
    (allowModel
        { rate := 3, per := 10, burst := none, fail_strategy := "open",
          async_mode := false }
        { on_allow := none, on_block := some true, on_error := true }
        (.ok (.arr [0, 0, 110])) (.str "u") 1).outcome =
      (if ("open" : String) = "closed" then .error .backendUnavailable
       else .ok (true, none)) ∧
    (allowModel
        { rate := 3, per := 10, burst := none, fail_strategy := "open",
          async_mode := false }
        { on_allow := none, on_block := some true, on_error := true }
        (.ok (.arr [0, 0, 110])) (.str "u") 1).on_error_calls =
      (if (true : Bool) then 1 else 0) :=
  c4_amended_callback_exception_replaced_by_fail_strategy_outcome
    { rate := 3, per := 10, burst := none, fail_strategy := "open",
      async_mode := false }
    { on_allow := none, on_block := some true, on_error := true }
    0 0 110 (.str "u") 1 rfl rfl (by decide) (Or.inr ⟨rfl, rfl⟩)

/-- C5: when the `backend.execute` call raises a backend-unavailability
failure, `fail_strategy="open"` makes the call return `(True, None)` and run
the configured `on_error` observer exactly once, while
`fail_strategy="closed"` makes it raise `BackendUnavailable`, again running
`on_error` exactly once. -/
theorem c5_backend_unavailability_follows_fail_strategy_and_notifies_once
    (cfg : LimiterCfg) (cb : Callbacks) (identity : PyIdentity) (cost : Int)
    (hmode : cfg.async_mode = false) (hid : validateIdentity identity = none)
    (hcost : 0 < cost) (herr : cb.on_error = true) :
    (cfg.fail_strategy = "open" →
      allowModel cfg cb .unavailable identity cost =
        { outcome := .ok (true, none), on_error_calls := 1,
          executor_contacted := true }) ∧
    (cfg.fail_strategy = "closed" →
      allowModel cfg cb .unavailable identity cost =
        { outcome := .error .backendUnavailable, on_error_calls := 1,
          executor_contacted := true }) := by
  have hcost' : ¬ cost ≤ 0 := not_le.mpr hcost
  have hbody : allowBody cfg cb .unavailable cost = handleBackendFailure cfg cb := rfl
  constructor <;> intro hfs <;>
    simp [allowModel, hmode, hid, hcost', hbody, handleBackendFailure, hfs, herr]

/-- C5 witness: an unreachable engine under both strategies, instantiated at
`fail_strategy="open"` with a configured error observer. -/
theorem c5_backend_unavailability_follows_fail_strategy_witness :
    (("open" : String) = "open" →
      allowModel
          { rate := 1, per := 1, burst := none, fail_strategy := "open",
            async_mode := false }
          { on_allow := none, on_block := none, on_error := true }
          .unavailable (.str "user") 1 =
        { outcome := .ok (true, none), on_error_calls := 1,
          executor_contacted := true }) ∧
    (("open" : String) = "closed" →
      allowModel
          { rate := 1, per := 1, burst := none, fail_strategy := "open",
            async_mode := false }
          { on_allow := none, on_block := none, on_error := true }
          .unavailable (.str "user") 1 =
        { outcome := .error .backendUnavailable, on_error_calls := 1,
          executor_contacted := true }) :=
  c5_backend_unavailability_follows_fail_strategy_and_notifies_once
    { rate := 1, per := 1, burst := none, fail_strategy := "open",
      async_mode := false }
    { on_allow := none, on_block := none, on_error := true }
    (.str "user") 1 rfl rfl (by decide) rfl

/-- C6: for every configuration the spec deems valid (`rate > 0`, `per > 0`,
`fail_strategy ∈ {open, closed}`, algorithm `token_bucket`, any burst),
constructing `RateLimiter` does NOT succeed: it raises `TypeError`, because
`TokenBucket` leaves the abstract method `static_args` unimplemented and
`__init__` instantiates it after the configuration checks pass. -/
theorem c6_every_valid_configuration_raises_type_error
    (rate per : Int) (burst : Option Int) (fs : String)
    (hrate : 0 < rate) (hper : 0 < per)
    (hfs : fs = "open" ∨ fs = "closed") :
    rateLimiterInit rate per burst "token_bucket" fs = .error .typeError := by
  have h1 : ¬(rate ≤ 0 ∨ per ≤ 0) := by omega
  have h4 : tokenBucketMissingAbstract ≠ [] := by decide
  rcases hfs with h | h <;> subst h <;> simp [rateLimiterInit, h1, h4]

/-- C6 witness: the concrete valid configuration `rate=1, per=1,
fail_strategy="open"` raises `TypeError` at construction. -/
theorem c6_every_valid_configuration_raises_type_error_witness :
    rateLimiterInit 1 1 none "token_bucket" "open" = .error .typeError :=
  c6_every_valid_configuration_raises_type_error 1 1 none "open"
    (by decide) (by decide) (Or.inl rfl)

/-- C7: the per-call `cost` is never forwarded to the engine — the argument
vector is `TokenBucket`-static args followed by the base-class
`dynamic_args`, which returns `[]` — so for any requested cost (such as 5
against `capacity = 3`) the script evaluates with its default `cost = 1` and
ADMITS the fresh-bucket request instead of rejecting it. -/
theorem c7_requested_cost_above_capacity_still_admitted (cost : Int) :
    dynamicArgsDefault cost = [] ∧
    tokenBucketArgs 3 10 3 ++ dynamicArgsDefault cost = [3, 10, 3] ∧
    luaTokenBucket (tokenBucketArgs 3 10 3 ++ dynamicArgsDefault cost) 100 none =
      .ok ({ allowed := 1, remaining := 2, reset := 104 },
           { tokens := 2, last_refill := 100 }) := by
  refine ⟨rfl, rfl, ?_⟩
  norm_num [luaTokenBucket, tokenBucketArgs, dynamicArgsDefault, Int.ceil_eq_iff]

/-- C8: an invalid identity (non-string, empty, or longer than 1024
characters) makes `allow` (respectively `allow_async`, in its mode) raise
`IdentityError` before the backend is contacted, with no observer invoked,
under every fail strategy. -/
theorem c8_invalid_identity_always_surfaces_identity_error
    (cfg : LimiterCfg) (cb : Callbacks) (exec : ExecOutcome)
    (identity : PyIdentity) (cost : Int)
    (hbad : identity = .nonStr ∨ identity = .str "" ∨
      ∃ s, identity = .str s ∧ 1024 < s.length) :
    (cfg.async_mode = false →
      allowModel cfg cb exec identity cost =
        { outcome := .error .identityError, on_error_calls := 0,
          executor_contacted := false }) ∧
    (cfg.async_mode = true →
      allowAsyncModel cfg cb exec identity cost =
        { outcome := .error .identityError, on_error_calls := 0,
          executor_contacted := false }) := by
  have hval : validateIdentity identity = some .identityError := by
    rcases hbad with h | h | ⟨s, h, hs⟩ <;> subst h
    · rfl
    · rfl
    · by_cases hse : s = "" <;> simp [validateIdentity, hse, hs]
  constructor <;> intro hmode <;> simp [allowModel, allowAsyncModel, hmode, hval]

/-- C8 witness: the empty-string identity in sync mode. -/
theorem c8_invalid_identity_always_surfaces_identity_error_witness :
    (allowModel
        { rate := 3, per := 10, burst := none, fail_strategy := "open",
          async_mode := false }
        { on_allow := none, on_block := none, on_error := true }
        .unavailable (.str "") 1 =
      { outcome := .error .identityError, on_error_calls := 0,
        executor_contacted := false }) := by
  exact (c8_invalid_identity_always_surfaces_identity_error
    { rate := 3, per := 10, burst := none, fail_strategy := "open",
      async_mode := false }
    { on_allow := none, on_block := none, on_error := true }
    .unavailable (.str "") 1 (Or.inr (Or.inl rfl))).1 rfl

/-- C9: for every Decision Result, the derived relative reset —
`retry_after`, its alias `reset_after`, and the `RateLimit-Reset` entry of
the relative header form — is 0 (the source computes
`max(0, reset - int(reset))` on an integer `reset`), while the absolute
header form retains the store-clock `reset` value. -/
theorem c9_derived_relative_reset_is_always_zero (i : RateLimitInfo) :
    i.retry_after = 0 ∧ i.reset_after = 0 ∧
    i.as_headers =
      [("RateLimit-Limit", toString i.limit),
       ("RateLimit-Remaining", toString i.remaining),
       ("RateLimit-Reset", "0")] ∧
    i.as_absolute_headers =
      [("RateLimit-Limit", toString i.limit),
       ("RateLimit-Remaining", toString i.remaining),
       ("RateLimit-Reset", toString i.reset)] := by
  have h : i.retry_after = 0 := by
    simp [RateLimitInfo.retry_after]
  refine ⟨h, h, ?_, rfl⟩
  simp [RateLimitInfo.as_headers, RateLimitInfo.reset_after, h]
  rfl

/-- On the cache produced by `_get_or_register_script`, the script's content
digest resolves to the handle the call returned. -/
theorem getOrRegisterScript_lookup (cache : List (String × String))
    (script : String) :
    ((getOrRegisterScript cache script).2).lookup (sha256Hex script) =
      some (getOrRegisterScript cache script).1 := by
  unfold getOrRegisterScript
  cases hc : cache.lookup (sha256Hex script) with
  | some lua => simp [hc]
  | none => simp [hc, List.lookup]

/-- In every reachable `RedisAsyncBackend` state, the script cache is still
empty while the initial ping is pending: registration only ever happens
after `_ensure_connection` has succeeded once and cleared the flag. -/
theorem asyncReachable_cache_empty_while_ping_pending (st : AsyncBackend)
    (h : AsyncReachable st) : st.ping_on_start = true → st.script_cache = [] := by
  induction h with
  | start => intro _; rfl
  | step st script pingOk call hst ih =>
    by_cases hping : st.ping_on_start && !pingOk
    · intro hflag
      have hsame : (asyncExecute st script pingOk call).2 = st := by
        simp [asyncExecute, hping]
      rw [hsame] at hflag ⊢
      exact ih hflag
    · cases call <;> intro hflag <;> simp [asyncExecute, hping] at hflag

/-- C10: for both Redis adapters, whenever `execute` propagates a
`RedisError` the local script cache ends up empty (so the next call
re-registers), and after a successful `execute` the cache maps the script's
content digest to the registration handle.  For the async adapter the
error case includes the initial-ping failure, which leaves the state
untouched — sound because in every reachable state the cache is already
empty while that ping is pending. -/
theorem c10_script_cache_cleared_on_error_and_mapped_on_success
    (stS : SyncBackend) (stA : AsyncBackend) (script : String)
    (callS callA : LuaCallOutcome) (pingOk : Bool)
    (hre : AsyncReachable stA) :
    ((syncExecute stS script callS).1 = .error .redisError →
      (syncExecute stS script callS).2.script_cache = []) ∧
    (∀ rep, (syncExecute stS script callS).1 = .ok rep →
      (syncExecute stS script callS).2.script_cache.lookup (sha256Hex script) =
        some (getOrRegisterScript stS.script_cache script).1) ∧
    ((asyncExecute stA script pingOk callA).1 = .error .redisError →
      (asyncExecute stA script pingOk callA).2.script_cache = []) ∧
    (∀ rep, (asyncExecute stA script pingOk callA).1 = .ok rep →
      (asyncExecute stA script pingOk callA).2.script_cache.lookup
          (sha256Hex script) =
        some (getOrRegisterScript stA.script_cache script).1) := by
  refine ⟨?_, ?_, ?_, ?_⟩
  · cases callS with
    | ok r => intro hc; simp [syncExecute] at hc
    | redisError => intro _; rfl
  · intro rep
    cases callS with
    | ok r => intro _; exact getOrRegisterScript_lookup stS.script_cache script
    | redisError => intro hc; simp [syncExecute] at hc
  · by_cases hping : stA.ping_on_start && !pingOk
    · intro _
      have hflag : stA.ping_on_start = true := by
        cases hb : stA.ping_on_start
        · rw [hb] at hping; simp at hping
        · rfl
      have hsame : (asyncExecute stA script pingOk callA).2 = stA := by
        simp [asyncExecute, hping]
      rw [hsame]
      exact asyncReachable_cache_empty_while_ping_pending stA hre hflag
    · cases callA with
      | ok r => intro hc; simp [asyncExecute, hping] at hc
      | redisError => intro _; simp [asyncExecute, hping]
  · intro rep
    by_cases hping : stA.ping_on_start && !pingOk
    · intro hc; simp [asyncExecute, hping] at hc
    · cases callA with
      | ok r =>
        intro _
        have hres : (asyncExecute stA script pingOk (.ok r)).2.script_cache =
            (getOrRegisterScript stA.script_cache script).2 := by
          simp [asyncExecute, hping]
        rw [hres]
        exact getOrRegisterScript_lookup stA.script_cache script
      | redisError => intro hc; simp [asyncExecute, hping] at hc

/-- C10 witness: a failing call on a fresh sync adapter and on the freshly
constructed async adapter (initial ping failing). -/
theorem c10_script_cache_cleared_on_error_and_mapped_on_success_witness :
    ((syncExecute { script_cache := [] } "s" .redisError).1 =
        .error .redisError →
      (syncExecute { script_cache := [] } "s" .redisError).2.script_cache = []) ∧
    (∀ rep, (syncExecute { script_cache := [] } "s" .redisError).1 = .ok rep →
      (syncExecute { script_cache := [] } "s"
          .redisError).2.script_cache.lookup (sha256Hex "s") =
        some (getOrRegisterScript [] "s").1) ∧
    ((asyncExecute asyncBackendStart "s" false .redisError).1 =
        .error .redisError →
      (asyncExecute asyncBackendStart "s" false .redisError).2.script_cache = []) ∧
    (∀ rep, (asyncExecute asyncBackendStart "s" false .redisError).1 = .ok rep →
      (asyncExecute asyncBackendStart "s" false
          .redisError).2.script_cache.lookup (sha256Hex "s") =
        some (getOrRegisterScript asyncBackendStart.script_cache "s").1) :=
  c10_script_cache_cleared_on_error_and_mapped_on_success
    { script_cache := [] } asyncBackendStart "s" .redisError .redisError false
    AsyncReachable.start

end DRL
